import Mathlib

/-!
Shallow embedding of `syslog-hv` (src/src/main.rs), a synthetic syslog UDP
traffic generator, together with proofs of the specification claims.

Randomness is modelled by oracles: `rand::Rng::gen_range(lo..hi)` becomes
`gen_range lo hi seed`, which returns `none` exactly when the Rust call
panics (empty range `lo >= hi`) and otherwise some value in `[lo, hi)`.
The external word generator `rand_word::new k` is an oracle
`Nat → String`.  Machine integers (`u64` counters) are `Nat` reduced
modulo `2 ^ 64` wherever the Rust code performs arithmetic on them.
Wall-clock instants are `Nat` milliseconds supplied by the environment.
Fallible operations (Rust panics / `unwrap`) return `Option`.
-/

namespace SyslogHv

/-- Modulus of the `u64` counters in `Stats`. -/
def u64Mod : Nat := 2 ^ 64

/-- Model of `rand::Rng::gen_range(lo..hi)`: `none` when the range is empty
(the Rust call panics), otherwise a value in `[lo, hi)` chosen by the seed. -/
def gen_range (lo hi seed : Nat) : Option Nat :=
  if lo < hi then some (lo + seed % (hi - lo)) else none

/-- Model of `std::net::IpAddr`, abstracted to its address family and its
`Display` rendering (the only two facets `Target` uses). -/
inductive IpAddr where
  | v4 (s : String)
  | v6 (s : String)
deriving DecidableEq

/-- Model of the `Display` implementation of `std::net::IpAddr`. -/
def IpAddr.display : IpAddr → String
  | .v4 s => s
  | .v6 s => s

/-- Model of `IpAddr::is_ipv4`. -/
def IpAddr.is_ipv4 : IpAddr → Bool
  | .v4 _ => true
  | .v6 _ => false

/-- The `Target` struct (main.rs lines 68-72). -/
structure Target where
  ip : IpAddr
  port : Nat
deriving DecidableEq

/-- The `Target::is_ipv4` method (main.rs lines 75-77). -/
def Target.is_ipv4 (t : Target) : Bool :=
  t.ip.is_ipv4

/-- The `Target::as_str` method (main.rs lines 79-85). -/
def Target.as_str (t : Target) : String :=
  if t.is_ipv4 then
    t.ip.display ++ ":" ++ toString t.port
  else
    "[" ++ t.ip.display ++ "]:" ++ toString t.port

/-- The `Target::bind_to` method (main.rs lines 87-93). -/
def Target.bind_to (t : Target) : String :=
  if t.is_ipv4 then "0.0.0.0:0" else "[::1]:0"

/-- The `Options` struct (main.rs lines 96-102); `u8`/`u64` fields as `Nat`. -/
structure Options where
  sleep_us : Nat
  priority_max : Nat
  words_max : Nat
  words_fixed : Nat
deriving DecidableEq

/-- The `Stats` struct (main.rs lines 104-108): a pair of `u64` counters. -/
structure Stats where
  packets : Nat
  bytes : Nat
deriving DecidableEq

/-- The `Config` struct (main.rs lines 110-113). -/
structure Config where
  target : Target
  options : Options

end SyslogHv

namespace SyslogHv

/-- Word count for one pool slot (main.rs lines 123-127): `words_fixed`
when non-zero, otherwise `rng.gen_range(1..words_max)`; `none` models the
panic of `gen_range` on an empty range (`words_max <= 1`). -/
def slotWordCount (opts : Options) (kSeed : Nat) : Option Nat :=
  if opts.words_fixed ≠ 0 then some opts.words_fixed
  else gen_range 1 opts.words_max kSeed

/-- One pool message (main.rs lines 123-131): pick the word count, call the
word generator, draw the priority from `[0, priority_max)` and format
`"<{prio}> {words}"`.  `wordOf k` is the oracle for `rand_word::new(k)`. -/
def mkMessage (opts : Options) (wordOf : Nat → String) (kSeed pSeed : Nat) :
    Option String :=
  match slotWordCount opts kSeed with
  | none => none
  | some k =>
    match gen_range 0 opts.priority_max pSeed with
    | none => none
    | some p => some ("<" ++ toString p ++ "> " ++ wordOf k)

/-- The pool-building loop body iterated over a list of slot indices
(main.rs lines 120-134): messages are pushed in slot order; a panic in any
slot aborts the build. -/
def buildPoolFrom (opts : Options) (wordOf : Nat → Nat → String)
    (seeds : Nat → Nat × Nat) : List Nat → Option (List String)
  | [] => some []
  | i :: rest =>
    match mkMessage opts (wordOf i) (seeds i).1 (seeds i).2 with
    | none => none
    | some m =>
      match buildPoolFrom opts wordOf seeds rest with
      | none => none
      | some ms => some (m :: ms)

/-- The message pool built at worker start (main.rs line 122):
`for _ in 0..(4 * 1024)` slots. -/
def buildPool (opts : Options) (wordOf : Nat → Nat → String)
    (seeds : Nat → Nat × Nat) : Option (List String) :=
  buildPoolFrom opts wordOf seeds (List.range (4 * 1024))

end SyslogHv

namespace SyslogHv

/-- Observable events of one worker loop iteration, in program order. -/
inductive Ev where
  | send (payload : String)
  | sleep (us : Nat)
  | flush (packets bytes : Nat)
  | loadFlag (v : Bool)
deriving DecidableEq

/-- Worker-local mutable state: the thread-local `tstats` counters and the
flush `tick` instant (milliseconds). -/
structure TxState where
  tstats : Stats
  tick : Nat
deriving DecidableEq

/-- Environment inputs consumed by one loop iteration: the RNG seed for the
pool index, the current instant when `tick.elapsed()` is evaluated, and the
value loaded from the shutdown flag. -/
structure IterInput where
  idxSeed : Nat
  now : Nat
  flag : Bool
deriving DecidableEq

/-- The message sent in one iteration (main.rs lines 144-145): a random
index into the pool, then the lookup `messages[idx]` (`none` models the
out-of-range panic). -/
def sentMessage (messages : List String) (seed : Nat) : Option String :=
  match gen_range 0 messages.length seed with
  | none => none
  | some idx => messages.get? idx

/-- Local counter increment after a send of `b` bytes (main.rs lines
151-152): `u64` additions, hence reduced modulo `2 ^ 64`. -/
def bump (t : Stats) (b : Nat) : Stats :=
  ⟨(t.packets + 1) % u64Mod, (t.bytes + b) % u64Mod⟩

/-- A worker flush into the shared accumulator (main.rs lines 159-162):
add the delta to both shared counters under the mutex (`u64` adds). -/
def statsFlush (s d : Stats) : Stats :=
  ⟨(s.packets + d.packets) % u64Mod, (s.bytes + d.bytes) % u64Mod⟩

/-- The reporter drain (main.rs lines 226-237): read both counters and
reset them to zero, all under the mutex. -/
def drain (s : Stats) : (Nat × Nat) × Stats :=
  ((s.packets, s.bytes), ⟨0, 0⟩)

/-- One iteration of the worker transmit loop (main.rs lines 143-171):
send a random pool message (UDP `send_to` reports the payload byte count),
bump local counters, sleep `sleep_us`, flush into the shared stats when at
least 100 ms elapsed since `tick` (resetting local counters and `tick`),
then load the shutdown flag; the returned `Bool` is whether to continue.
The event list records the iteration's observable actions in order. -/
def loopIter (opts : Options) (messages : List String) (shared : Stats)
    (st : TxState) (inp : IterInput) :
    Option (Stats × TxState × Bool × List Ev) :=
  match sentMessage messages inp.idxSeed with
  | none => none
  | some message =>
    let t1 := bump st.tstats message.utf8ByteSize
    if st.tick + 100 ≤ inp.now then
      some (statsFlush shared t1, ⟨⟨0, 0⟩, inp.now⟩, !inp.flag,
        [Ev.send message, Ev.sleep opts.sleep_us,
         Ev.flush t1.packets t1.bytes, Ev.loadFlag inp.flag])
    else
      some (shared, ⟨t1, st.tick⟩, !inp.flag,
        [Ev.send message, Ev.sleep opts.sleep_us, Ev.loadFlag inp.flag])

/-- The worker transmit loop run over a finite stream of environment
inputs.  The final `Bool` is `true` when the loop exited via the shutdown
flag and `false` when the input stream was exhausted first. -/
def txLoop (opts : Options) (messages : List String) :
    Stats → TxState → List IterInput → Option (Stats × TxState × Bool × List Ev)
  | sh, st, [] => some (sh, st, false, [])
  | sh, st, inp :: rest =>
    match loopIter opts messages sh st inp with
    | none => none
    | some (sh1, st1, cont, tr) =>
      if cont then
        match txLoop opts messages sh1 st1 rest with
        | none => none
        | some (sh2, st2, ex, tr2) => some (sh2, st2, ex, tr ++ tr2)
      else some (sh1, st1, true, tr)

/-- The worker entry `tx_thread` (main.rs lines 115-172): build the 4096
message pool, initialize local counters to zero and the flush tick, then
run the transmit loop.  `none` models a panic before the loop completes;
in particular a pool-build panic happens before any send. -/
def tx_thread (config : Config) (wordOf : Nat → Nat → String)
    (seeds : Nat → Nat × Nat) (startTick : Nat) (shared : Stats)
    (inputs : List IterInput) : Option (Stats × TxState × Bool × List Ev) :=
  match buildPool config.options wordOf seeds with
  | none => none
  | some messages =>
    txLoop config.options messages shared ⟨⟨0, 0⟩, startTick⟩ inputs

/-- One reporter tick (main.rs lines 222-242): sleep one second, drain the
shared stats, print, then load the shutdown flag; returns the reset shared
stats, the drained pair, and whether to continue. -/
def reporterIter (shared : Stats) (flag : Bool) : Stats × (Nat × Nat) × Bool :=
  (⟨0, 0⟩, (shared.packets, shared.bytes), !flag)

/-- The reporter loop over a finite stream of flag readings; final `Bool`
is `true` when it exited via the shutdown flag. -/
def reporterLoop : Stats → List Bool → Stats × Bool
  | sh, [] => (sh, false)
  | sh, flag :: rest =>
    match reporterIter sh flag with
    | (sh1, _, cont) => if cont then reporterLoop sh1 rest else (sh1, true)

/-- Startup of `main` (main.rs lines 210-220): workers are spawned for
`0..threads_nr` with no validation of the options beforehand. -/
def mainSpawn (threads_nr : Nat) : List Nat :=
  List.range threads_nr

end SyslogHv

namespace SyslogHv

/-- Actions on the shutdown flag, from the code: the ctrl-c handler stores
`true` (main.rs line 201); each worker (line 168) and the reporter
(line 239) only load it. -/
inductive FlagAction where
  | handlerSet
  | workerLoad
  | reporterLoad
deriving DecidableEq

/-- Effect of one action on the flag value. -/
def flagStep : Bool → FlagAction → Bool
  | _, .handlerSet => true
  | b, .workerLoad => b
  | b, .reporterLoad => b

/-- The flag value after a trace of actions, starting from the initial
`AtomicBool::new(false)` (main.rs line 197). -/
def runFlag (acts : List FlagAction) : Bool :=
  acts.foldl flagStep false

/-- Sum of the `packets` components of a list of flushed deltas. -/
def sumPackets (ds : List Stats) : Nat :=
  (ds.map Stats.packets).sum

/-- Sum of the `bytes` components of a list of flushed deltas. -/
def sumBytes (ds : List Stats) : Nat :=
  (ds.map Stats.bytes).sum

end SyslogHv

namespace SyslogHv

theorem gen_range_some_iff (lo hi seed : Nat) :
    (gen_range lo hi seed).isSome ↔ lo < hi := by
  unfold gen_range
  split <;> simp_all

theorem gen_range_bounds (lo hi seed k : Nat)
    (h : gen_range lo hi seed = some k) : lo ≤ k ∧ k < hi := by
  unfold gen_range at h
  split at h
  · next hlt =>
    cases h
    refine ⟨Nat.le_add_right _ _, ?_⟩
    have hm : seed % (hi - lo) < hi - lo := Nat.mod_lt _ (by omega)
    omega
  · cases h

theorem flagStep_true (a : FlagAction) : flagStep true a = true := by
  cases a <;> rfl

theorem foldl_flagStep_true (l : List FlagAction) :
    l.foldl flagStep true = true := by
  induction l with
  | nil => rfl
  | cons a l ih => rw [List.foldl_cons, flagStep_true, ih]

theorem u64Mod_pos : 0 < u64Mod := by
  unfold u64Mod
  positivity

theorem foldl_statsFlush_eq (ds : List Stats) : ∀ s : Stats,
    s.packets < u64Mod → s.bytes < u64Mod →
    ds.foldl statsFlush s =
      ⟨(s.packets + sumPackets ds) % u64Mod,
       (s.bytes + sumBytes ds) % u64Mod⟩ := by
  induction ds with
  | nil =>
    intro s hp hb
    simp [sumPackets, sumBytes, Nat.mod_eq_of_lt hp, Nat.mod_eq_of_lt hb]
  | cons d ds ih =>
    intro s hp hb
    rw [List.foldl_cons]
    rw [ih (statsFlush s d) (Nat.mod_lt _ u64Mod_pos) (Nat.mod_lt _ u64Mod_pos)]
    simp only [statsFlush, sumPackets, sumBytes, List.map_cons, List.sum_cons]
    rw [Nat.mod_add_mod, Nat.mod_add_mod]
    rw [Nat.add_assoc, Nat.add_assoc]

/-- C2: the word count of every pool slot is `words_fixed` when that is
non-zero; otherwise it lies in `[1, words_max)`, and `words_max <= 1` is a
configuration error (the draw panics). -/
theorem c2_word_count (opts : Options) (kSeed : Nat) :
    (opts.words_fixed ≠ 0 → slotWordCount opts kSeed = some opts.words_fixed) ∧
    (opts.words_fixed = 0 →
      (∀ k, slotWordCount opts kSeed = some k → 1 ≤ k ∧ k < opts.words_max) ∧
      (opts.words_max ≤ 1 → slotWordCount opts kSeed = none)) := by
  constructor
  · intro h
    simp [slotWordCount, h]
  · intro h
    constructor
    · intro k hk
      rw [slotWordCount, if_neg (by simp [h])] at hk
      exact gen_range_bounds 1 opts.words_max kSeed k hk
    · intro hmax
      rw [slotWordCount, if_neg (by simp [h])]
      unfold gen_range
      rw [if_neg (by omega)]

theorem c2_word_count_witness :
    slotWordCount ⟨1, 50, 20, 3⟩ 0 = some 3 ∧ (1 ≤ 1 ∧ 1 < 20) ∧
    slotWordCount ⟨1, 50, 1, 0⟩ 5 = none :=
  ⟨(c2_word_count ⟨1, 50, 20, 3⟩ 0).1 (by decide),
   ((c2_word_count ⟨1, 50, 20, 0⟩ 0).2 rfl).1 1 rfl,
   ((c2_word_count ⟨1, 50, 1, 0⟩ 5).2 rfl).2 (by decide)⟩

/-- C6: the shutdown flag starts `false`, the handler's store is the only
write and always writes `true`, loads leave it unchanged, and along any
action trace the flag is monotonic: once `true`, it stays `true`. -/
theorem c6_flag_monotonic :
    runFlag [] = false ∧
    (∀ b, flagStep b FlagAction.handlerSet = true) ∧
    (∀ b, flagStep b FlagAction.workerLoad = b ∧
          flagStep b FlagAction.reporterLoad = b) ∧
    (∀ acts more, runFlag acts = true → runFlag (acts ++ more) = true) := by
  refine ⟨rfl, fun b => rfl, fun b => ⟨rfl, rfl⟩, fun acts more h => ?_⟩
  unfold runFlag at h ⊢
  rw [List.foldl_append, h, foldl_flagStep_true]

theorem c6_flag_monotonic_witness :
    runFlag ([FlagAction.handlerSet] ++
      [FlagAction.workerLoad, FlagAction.reporterLoad]) = true :=
  c6_flag_monotonic.2.2.2 [FlagAction.handlerSet]
    [FlagAction.workerLoad, FlagAction.reporterLoad] rfl

/-- C4: a flush adds the worker's delta to both shared counters (mod 2^64),
a drain reads both counters and resets them to zero, and the values drained
after a sequence of flushes that serialized since the previous drain equal
the sums of the flushed deltas (exactly, whenever the sums fit in `u64`). -/
theorem c4_stats_aggregator (s : Stats) (ds : List Stats) :
    (∀ t d : Stats, statsFlush t d =
        ⟨(t.packets + d.packets) % u64Mod, (t.bytes + d.bytes) % u64Mod⟩) ∧
    (drain s).1 = (s.packets, s.bytes) ∧
    (drain s).2 = ⟨0, 0⟩ ∧
    (sumPackets ds < u64Mod → sumBytes ds < u64Mod →
      (drain (ds.foldl statsFlush (drain s).2)).1 =
        (sumPackets ds, sumBytes ds)) := by
  refine ⟨fun t d => rfl, rfl, rfl, fun hp hb => ?_⟩
  have h0 : (drain s).2 = (⟨0, 0⟩ : Stats) := rfl
  rw [h0, foldl_statsFlush_eq ds ⟨0, 0⟩ u64Mod_pos u64Mod_pos]
  simp [drain, Nat.mod_eq_of_lt hp, Nat.mod_eq_of_lt hb]

theorem c4_stats_aggregator_witness :
    (drain (([⟨1, 2⟩, ⟨3, 4⟩] : List Stats).foldl statsFlush
      (drain ⟨7, 8⟩).2)).1 =
      (sumPackets [⟨1, 2⟩, ⟨3, 4⟩], sumBytes [⟨1, 2⟩, ⟨3, 4⟩]) :=
  (c4_stats_aggregator ⟨7, 8⟩ [⟨1, 2⟩, ⟨3, 4⟩]).2.2.2 (by decide) (by decide)

theorem gen_range_exists (lo hi seed : Nat) (h : lo < hi) :
    ∃ k, gen_range lo hi seed = some k ∧ lo ≤ k ∧ k < hi := by
  refine ⟨lo + seed % (hi - lo), ?_, Nat.le_add_right _ _, ?_⟩
  · unfold gen_range
    rw [if_pos h]
  · have hm : seed % (hi - lo) < hi - lo := Nat.mod_lt _ (by omega)
    omega

theorem mkMessage_valid (opts : Options) (w : Nat → String) (kS pS : Nat)
    (hp : 0 < opts.priority_max)
    (hw : opts.words_fixed ≠ 0 ∨ 1 < opts.words_max) :
    ∃ p k, p < opts.priority_max ∧
      mkMessage opts w kS pS = some ("<" ++ toString p ++ "> " ++ w k) := by
  have hk : ∃ k, slotWordCount opts kS = some k := by
    rcases hw with hf | hm
    · exact ⟨opts.words_fixed, by simp [slotWordCount, hf]⟩
    · by_cases hf : opts.words_fixed ≠ 0
      · exact ⟨opts.words_fixed, by simp [slotWordCount, hf]⟩
      · obtain ⟨k, hk, -, -⟩ := gen_range_exists 1 opts.words_max kS hm
        exact ⟨k, by simp [slotWordCount, hf, hk]⟩
  obtain ⟨k, hk⟩ := hk
  obtain ⟨p, hgp, -, hplt⟩ := gen_range_exists 0 opts.priority_max pS hp
  exact ⟨p, k, hplt, by rw [mkMessage, hk, hgp]⟩

theorem buildPoolFrom_valid (opts : Options) (w : Nat → Nat → String)
    (seeds : Nat → Nat × Nat) (hp : 0 < opts.priority_max)
    (hw : opts.words_fixed ≠ 0 ∨ 1 < opts.words_max) (l : List Nat) :
    ∃ pool, buildPoolFrom opts w seeds l = some pool ∧
      pool.length = l.length ∧
      ∀ m ∈ pool, ∃ i p k, p < opts.priority_max ∧
        m = "<" ++ toString p ++ "> " ++ w i k := by
  induction l with
  | nil => exact ⟨[], rfl, rfl, by simp⟩
  | cons i rest ih =>
    obtain ⟨p, k, hplt, hmk⟩ :=
      mkMessage_valid opts (w i) (seeds i).1 (seeds i).2 hp hw
    obtain ⟨pool, hpool, hlen, hform⟩ := ih
    refine ⟨("<" ++ toString p ++ "> " ++ w i k) :: pool, ?_, by simp [hlen], ?_⟩
    · rw [buildPoolFrom, hmk, hpool]
    · intro m hm
      rcases List.mem_cons.mp hm with rfl | hmem
      · exact ⟨i, p, k, hplt, rfl⟩
      · exact hform m hmem

theorem mkMessage_invalid (opts : Options) (w : Nat → String) (kS pS : Nat)
    (h : opts.priority_max = 0 ∨
      (opts.words_fixed = 0 ∧ opts.words_max ≤ 1)) :
    mkMessage opts w kS pS = none := by
  rcases h with hp | ⟨hf, hm⟩
  · rw [mkMessage]
    cases hsl : slotWordCount opts kS with
    | none => rfl
    | some k =>
      have : gen_range 0 opts.priority_max pS = none := by
        unfold gen_range
        rw [if_neg (by omega)]
      rw [this]
  · rw [mkMessage, slotWordCount, if_neg (by simp [hf])]
    unfold gen_range
    rw [if_neg (by omega)]

theorem buildPoolFrom_invalid (opts : Options) (w : Nat → Nat → String)
    (seeds : Nat → Nat × Nat)
    (h : opts.priority_max = 0 ∨
      (opts.words_fixed = 0 ∧ opts.words_max ≤ 1)) :
    ∀ l : List Nat, l ≠ [] → buildPoolFrom opts w seeds l = none := by
  intro l hl
  cases l with
  | nil => exact absurd rfl hl
  | cons i rest =>
    rw [buildPoolFrom, mkMessage_invalid opts (w i) (seeds i).1 (seeds i).2 h]

/-- C1: under a valid configuration the pool built at worker start has
exactly 4096 entries, every entry is the priority in angle brackets, a
space, and the generator's word string, with the priority strictly below
`priority_max`; and every message picked for sending is a pool entry. -/
theorem c1_pool_format (opts : Options) (wordOf : Nat → Nat → String)
    (seeds : Nat → Nat × Nat) (hp : 0 < opts.priority_max)
    (hw : opts.words_fixed ≠ 0 ∨ 1 < opts.words_max) :
    ∃ pool, buildPool opts wordOf seeds = some pool ∧
      pool.length = 4096 ∧
      (∀ m ∈ pool, ∃ i p k, p < opts.priority_max ∧
        m = "<" ++ toString p ++ "> " ++ wordOf i k) ∧
      (∀ seed m, sentMessage pool seed = some m → m ∈ pool) := by
  obtain ⟨pool, hpool, hlen, hform⟩ :=
    buildPoolFrom_valid opts wordOf seeds hp hw (List.range (4 * 1024))
  refine ⟨pool, hpool, by simpa using hlen, hform, ?_⟩
  intro seed m hm
  rw [sentMessage] at hm
  cases hg : gen_range 0 pool.length seed with
  | none => rw [hg] at hm; cases hm
  | some idx =>
    rw [hg] at hm
    exact List.get?_mem hm

theorem c1_pool_format_witness :
    ∃ pool,
      buildPool ⟨1, 1, 20, 1⟩ (fun _ _ => "w") (fun _ => (0, 0)) = some pool ∧
      pool.length = 4096 ∧
      (∀ m ∈ pool, ∃ i p k, p < (⟨1, 1, 20, 1⟩ : Options).priority_max ∧
        m = "<" ++ toString p ++ "> " ++ (fun (_ _ : Nat) => "w") i k) ∧
      (∀ seed m, sentMessage pool seed = some m → m ∈ pool) :=
  c1_pool_format ⟨1, 1, 20, 1⟩ (fun _ _ => "w") (fun _ => (0, 0))
    (by decide) (Or.inl (by decide))

/-- C9: with the 4096-entry pool, the random index always lands in
`[0, pool length)`, the pool lookup always succeeds, and a loop iteration
never hits the out-of-range panic. -/
theorem c9_index_in_bounds (opts : Options) (messages : List String)
    (h : messages.length = 4096) :
    (∀ seed, ∃ idx m, gen_range 0 messages.length seed = some idx ∧
      idx < messages.length ∧ messages.get? idx = some m) ∧
    (∀ sh st inp, (loopIter opts messages sh st inp).isSome) := by
  have hpos : 0 < messages.length := by omega
  have hsent : ∀ seed, ∃ idx m,
      gen_range 0 messages.length seed = some idx ∧
      idx < messages.length ∧ messages.get? idx = some m := by
    intro seed
    obtain ⟨idx, hg, -, hlt⟩ := gen_range_exists 0 messages.length seed hpos
    exact ⟨idx, messages.get ⟨idx, hlt⟩, hg, hlt, List.get?_eq_get hlt⟩
  refine ⟨hsent, fun sh st inp => ?_⟩
  obtain ⟨idx, m, hg, hlt, hget⟩ := hsent inp.idxSeed
  rw [loopIter, sentMessage, hg]
  dsimp only
  rw [hget]
  dsimp only
  split <;> rfl

theorem c9_index_in_bounds_witness :
    (∀ seed, ∃ idx m,
      gen_range 0 (List.replicate 4096 ("<0> w")).length seed = some idx ∧
      idx < (List.replicate 4096 ("<0> w")).length ∧
      (List.replicate 4096 ("<0> w")).get? idx = some m) ∧
    (∀ sh st inp,
      (loopIter ⟨1, 50, 20, 0⟩ (List.replicate 4096 ("<0> w")) sh st
        inp).isSome) :=
  c9_index_in_bounds ⟨1, 50, 20, 0⟩ (List.replicate 4096 ("<0> w"))
    (List.length_replicate 4096 ("<0> w"))

theorem loopIter_cases (opts : Options) (messages : List String) (sh : Stats)
    (st : TxState) (inp : IterInput) (r : Stats × TxState × Bool × List Ev)
    (h : loopIter opts messages sh st inp = some r) :
    ∃ m, sentMessage messages inp.idxSeed = some m ∧
      ((st.tick + 100 ≤ inp.now ∧
        r = (statsFlush sh (bump st.tstats m.utf8ByteSize),
          ⟨⟨0, 0⟩, inp.now⟩, !inp.flag,
          [Ev.send m, Ev.sleep opts.sleep_us,
           Ev.flush (bump st.tstats m.utf8ByteSize).packets
             (bump st.tstats m.utf8ByteSize).bytes,
           Ev.loadFlag inp.flag])) ∨
      (¬ st.tick + 100 ≤ inp.now ∧
        r = (sh, ⟨bump st.tstats m.utf8ByteSize, st.tick⟩, !inp.flag,
          [Ev.send m, Ev.sleep opts.sleep_us, Ev.loadFlag inp.flag]))) := by
  unfold loopIter at h
  cases hsm : sentMessage messages inp.idxSeed with
  | none =>
    rw [hsm] at h
    simp at h
  | some m =>
    rw [hsm] at h
    dsimp only at h
    by_cases htick : st.tick + 100 ≤ inp.now
    · rw [if_pos htick] at h
      exact ⟨m, rfl, Or.inl ⟨htick, (Option.some.inj h).symm⟩⟩
    · rw [if_neg htick] at h
      exact ⟨m, rfl, Or.inr ⟨htick, (Option.some.inj h).symm⟩⟩

/-- C5: in a loop iteration where at least 100 ms elapsed since the flush
tick, the worker adds its (just-bumped) local counters into the shared
stats, zeroes the local counters, and resets the tick; otherwise the
shared stats are untouched and the local counters keep accumulating. -/
theorem c5_flush_100ms (opts : Options) (messages : List String) (sh : Stats)
    (st : TxState) (inp : IterInput) (sh1 : Stats) (st1 : TxState)
    (cont : Bool) (tr : List Ev)
    (h : loopIter opts messages sh st inp = some (sh1, st1, cont, tr)) :
    ∃ m, sentMessage messages inp.idxSeed = some m ∧
      (st.tick + 100 ≤ inp.now →
        sh1 = statsFlush sh (bump st.tstats m.utf8ByteSize) ∧
        st1.tstats = ⟨0, 0⟩ ∧ st1.tick = inp.now) ∧
      (¬ st.tick + 100 ≤ inp.now →
        sh1 = sh ∧ st1.tstats = bump st.tstats m.utf8ByteSize ∧
        st1.tick = st.tick) := by
  obtain ⟨m, hsm, hcase⟩ :=
    loopIter_cases opts messages sh st inp (sh1, st1, cont, tr) h
  refine ⟨m, hsm, ?_, ?_⟩
  · intro htick
    rcases hcase with ⟨-, heq⟩ | ⟨hnt, -⟩
    · simp only [Prod.mk.injEq] at heq
      obtain ⟨h1, h2, h3, h4⟩ := heq
      exact ⟨h1, by rw [h2], by rw [h2]⟩
    · exact absurd htick hnt
  · intro hnot
    rcases hcase with ⟨htick, -⟩ | ⟨-, heq⟩
    · exact absurd htick hnot
    · simp only [Prod.mk.injEq] at heq
      obtain ⟨h1, h2, h3, h4⟩ := heq
      exact ⟨h1, by rw [h2], by rw [h2]⟩

theorem c5_flush_100ms_witness :
    ∃ m, sentMessage [("<0> w")] (⟨0, 200, false⟩ : IterInput).idxSeed =
        some m ∧
      ((⟨⟨0, 0⟩, 0⟩ : TxState).tick + 100 ≤ (⟨0, 200, false⟩ : IterInput).now →
        (⟨1, 5⟩ : Stats) =
          statsFlush ⟨0, 0⟩
            (bump (⟨⟨0, 0⟩, 0⟩ : TxState).tstats m.utf8ByteSize) ∧
        (⟨⟨0, 0⟩, 200⟩ : TxState).tstats = ⟨0, 0⟩ ∧
        (⟨⟨0, 0⟩, 200⟩ : TxState).tick = (⟨0, 200, false⟩ : IterInput).now) ∧
      (¬ (⟨⟨0, 0⟩, 0⟩ : TxState).tick + 100 ≤
          (⟨0, 200, false⟩ : IterInput).now →
        (⟨1, 5⟩ : Stats) = ⟨0, 0⟩ ∧
        (⟨⟨0, 0⟩, 200⟩ : TxState).tstats =
          bump (⟨⟨0, 0⟩, 0⟩ : TxState).tstats m.utf8ByteSize ∧
        (⟨⟨0, 0⟩, 200⟩ : TxState).tick = (⟨⟨0, 0⟩, 0⟩ : TxState).tick) :=
  c5_flush_100ms ⟨1, 1, 20, 1⟩ [("<0> w")] ⟨0, 0⟩ ⟨⟨0, 0⟩, 0⟩ ⟨0, 200, false⟩
    ⟨1, 5⟩ ⟨⟨0, 0⟩, 200⟩ true
    [Ev.send ("<0> w"), Ev.sleep 1, Ev.flush 1 5, Ev.loadFlag false] rfl

/-- C10: every successful loop iteration sends a datagram (and takes the
pacing sleep) strictly before its single observation of the shutdown flag,
and when that observation reads `true` the loop does not continue. -/
theorem c10_send_before_flag (opts : Options) (messages : List String)
    (sh : Stats) (st : TxState) (inp : IterInput) (sh1 : Stats)
    (st1 : TxState) (cont : Bool) (tr : List Ev)
    (h : loopIter opts messages sh st inp = some (sh1, st1, cont, tr)) :
    ∃ m mid, tr = Ev.send m :: Ev.sleep opts.sleep_us ::
        (mid ++ [Ev.loadFlag inp.flag]) ∧
      (∀ e ∈ mid, ∀ b, e ≠ Ev.loadFlag b) ∧
      (inp.flag = true → cont = false) := by
  obtain ⟨m, hsm, hcase⟩ :=
    loopIter_cases opts messages sh st inp (sh1, st1, cont, tr) h
  rcases hcase with ⟨htick, heq⟩ | ⟨htick, heq⟩ <;>
    simp only [Prod.mk.injEq] at heq
  · obtain ⟨h1, h2, h3, h4⟩ := heq
    refine ⟨m, [Ev.flush (bump st.tstats m.utf8ByteSize).packets
      (bump st.tstats m.utf8ByteSize).bytes], ?_, ?_, ?_⟩
    · rw [h4]
      rfl
    · intro e he b
      rw [List.mem_singleton] at he
      subst he
      exact fun hc => Ev.noConfusion hc
    · intro hf
      rw [h3, hf]
      rfl
  · obtain ⟨h1, h2, h3, h4⟩ := heq
    refine ⟨m, [], ?_, by simp, ?_⟩
    · rw [h4]
      rfl
    · intro hf
      rw [h3, hf]
      rfl

theorem c10_send_before_flag_witness :
    ∃ m mid, [Ev.send ("<0> w"), Ev.sleep 1, Ev.loadFlag true] =
        Ev.send m :: Ev.sleep 1 :: (mid ++ [Ev.loadFlag true]) ∧
      (∀ e ∈ mid, ∀ b, e ≠ Ev.loadFlag b) ∧
      (true = true → false = false) :=
  c10_send_before_flag ⟨1, 1, 20, 1⟩ [("<0> w")] ⟨0, 0⟩ ⟨⟨0, 0⟩, 0⟩
    ⟨0, 0, true⟩ ⟨0, 0⟩ ⟨⟨1, 5⟩, 0⟩ false
    [Ev.send ("<0> w"), Ev.sleep 1, Ev.loadFlag true] rfl

/-- C7: once the shutdown flag reads `true`, the worker loop stops right
after the current iteration (the flag is polled once per iteration), and
the reporter loop stops right after its current one-second tick. -/
theorem c7_shutdown_termination :
    (∀ (opts : Options) (messages : List String) (sh : Stats) (st : TxState)
      (inp : IterInput) (rest : List IterInput) (sh1 : Stats) (st1 : TxState)
      (cont : Bool) (tr : List Ev),
      inp.flag = true →
      loopIter opts messages sh st inp = some (sh1, st1, cont, tr) →
      txLoop opts messages sh st (inp :: rest) = some (sh1, st1, true, tr)) ∧
    ∀ (sh : Stats) (rest : List Bool),
      reporterLoop sh (true :: rest) = (⟨0, 0⟩, true) := by
  constructor
  · intro opts messages sh st inp rest sh1 st1 cont tr hflag h
    obtain ⟨m, hsm, hcase⟩ :=
      loopIter_cases opts messages sh st inp (sh1, st1, cont, tr) h
    have hcont : cont = false := by
      rcases hcase with ⟨-, heq⟩ | ⟨-, heq⟩ <;>
        (simp only [Prod.mk.injEq] at heq; rw [heq.2.2.1, hflag]; rfl)
    simp only [txLoop, h]
    rw [hcont]
    simp
  · intro sh rest
    rfl

theorem c7_shutdown_termination_witness :
    txLoop ⟨1, 1, 20, 1⟩ [("<0> w")] ⟨0, 0⟩ ⟨⟨0, 0⟩, 0⟩ [⟨0, 0, true⟩] =
      some (⟨0, 0⟩, ⟨⟨1, 5⟩, 0⟩, true,
        [Ev.send ("<0> w"), Ev.sleep 1, Ev.loadFlag true]) ∧
    reporterLoop ⟨3, 4⟩ [true] = (⟨0, 0⟩, true) :=
  ⟨c7_shutdown_termination.1 ⟨1, 1, 20, 1⟩ [("<0> w")] ⟨0, 0⟩ ⟨⟨0, 0⟩, 0⟩
    ⟨0, 0, true⟩ [] ⟨0, 0⟩ ⟨⟨1, 5⟩, 0⟩ false
    [Ev.send ("<0> w"), Ev.sleep 1, Ev.loadFlag true] rfl rfl,
   c7_shutdown_termination.2 ⟨3, 4⟩ []⟩

/-- C3 counterexample: with `-P 0` (an invalid configuration) and one
thread requested, `main` still spawns a worker — there is no startup
validation, contradicting an exit before any worker is spawned. -/
theorem c3_counterexample :
    (⟨1, 0, 20, 0⟩ : Options).priority_max = 0 ∧ mainSpawn 1 ≠ [] := by
  decide

/-- C3 (amended): `main` spawns its workers without validating the
options; an invalid configuration (`priority_max = 0`, or variable mode
with `words_max <= 1`) instead makes every worker's pool construction
panic, before the transmit loop starts, so no datagram is emitted. -/
theorem c3_no_startup_validation (config : Config)
    (wordOf : Nat → Nat → String) (seeds : Nat → Nat × Nat)
    (startTick : Nat) (sh : Stats) (inputs : List IterInput) (n : Nat)
    (h : config.options.priority_max = 0 ∨
      (config.options.words_fixed = 0 ∧ config.options.words_max ≤ 1)) :
    mainSpawn n = List.range n ∧
    buildPool config.options wordOf seeds = none ∧
    tx_thread config wordOf seeds startTick sh inputs = none := by
  have hpool : buildPool config.options wordOf seeds = none := by
    rw [buildPool]
    exact buildPoolFrom_invalid config.options wordOf seeds h
      (List.range (4 * 1024)) (by simp [List.range_eq_nil])
  refine ⟨rfl, hpool, ?_⟩
  rw [tx_thread, hpool]

theorem c3_no_startup_validation_witness :
    mainSpawn 1 = List.range 1 ∧
    buildPool ⟨1, 0, 20, 0⟩ (fun _ _ => "w") (fun _ => (0, 0)) = none ∧
    tx_thread ⟨⟨IpAddr.v4 ("127.0.0.1"), 514⟩, ⟨1, 0, 20, 0⟩⟩
      (fun _ _ => "w") (fun _ => (0, 0)) 0 ⟨0, 0⟩ [] = none :=
  c3_no_startup_validation ⟨⟨IpAddr.v4 ("127.0.0.1"), 514⟩, ⟨1, 0, 20, 0⟩⟩
    (fun _ _ => "w") (fun _ => (0, 0)) 0 ⟨0, 0⟩ [] 1 (Or.inl rfl)

/-- C8: destination and bind strings of `Target`. -/
theorem c8_target_strings (s : String) (p : Nat) :
    Target.as_str ⟨IpAddr.v4 s, p⟩ = s ++ ":" ++ toString p ∧
    Target.bind_to ⟨IpAddr.v4 s, p⟩ = "0.0.0.0:0" ∧
    Target.as_str ⟨IpAddr.v6 s, p⟩ = "[" ++ s ++ "]:" ++ toString p ∧
    Target.bind_to ⟨IpAddr.v6 s, p⟩ = "[::1]:0" := by
  refine ⟨?_, ?_, ?_, ?_⟩ <;>
    simp [Target.as_str, Target.bind_to, Target.is_ipv4, IpAddr.is_ipv4,
      IpAddr.display]

end SyslogHv
